import Mathlib

/-!
Verification of the gredentures CLI tool: a shallow embedding of the
configuration-resolution logic (pkg/appconfig) and the credentials-file
rewrite logic (pkg/awsconfig), together with a model of the two top-level
pipelines (src/main.go main, and the CLI function of the historical
single-file version).

Conventions of the embedding:
- YAML/koanf key-value data is a flat association list from string keys
  (such as "gredentures.Org") to typed values, matching how koanf flattens
  the written and loaded maps with the "." delimiter.
- Go nil pointers are Option; a nil-pointer dereference is modelled by
  a none result of the dereferencing function (the run crashes there).
- File-system interaction is explicit state passing: the gredentures
  config file is a FileState, the aws credentials file is an IniFile.
- Go int32 arithmetic is Int with an explicit wrap at 2 to the power 32
  where the source casts (the int32 conversion in LoadGredenturesConfig).
- External calls (STS exchange, default credential retrieval) are
  modelled by their outcome, recorded in a World value.
-/

namespace Gredentures

/-- A value stored in a koanf map: a YAML string or a YAML integer. -/
inductive Value where
  | vstr (s : String)
  | vint (n : Int)
deriving DecidableEq, Repr

/-- A flat koanf key-value map (keys already joined with the "." delimiter). -/
abbrev KVMap := List (String × Value)

/-- First value bound to a key in a koanf map. -/
def lookupKV : KVMap → String → Option Value
  | [], _ => none
  | (k, v) :: rest, key => if k = key then some v else lookupKV rest key

/-- koanf string conversion of a raw value (cast.ToString). -/
def Value.asString : Value → String
  | .vstr s => s
  | .vint n => toString n

/-- koanf integer conversion of a raw value (cast.ToInt); a non-numeric
string converts to 0. -/
def Value.asInt : Value → Int
  | .vstr s => (s.toInt?).getD 0
  | .vint n => n

/-- k.String key on a koanf map: empty string when the key is absent. -/
def kString (m : KVMap) (key : String) : String :=
  (lookupKV m key).elim "" Value.asString

/-- k.Int key on a koanf map: 0 when the key is absent. -/
def kInt (m : KVMap) (key : String) : Int :=
  (lookupKV m key).elim 0 Value.asInt

/-- Lookup in a koanf instance that loaded `existing` first and then
merged `fileMap` over it: keys of the later load win. -/
def mergedGet (existing fileMap : KVMap) (key : String) : Option Value :=
  match lookupKV fileMap key with
  | some v => some v
  | none => lookupKV existing key

/-- Go int32 conversion: wrap an Int into the int32 range. -/
def wrap32 (n : Int) : Int :=
  (n + 2 ^ 31) % 2 ^ 32 - 2 ^ 31

/-- AppConfig from pkg/appconfig/appconfig.go: the CLI and file-backed
configuration. Timeout is a Go int32, modelled as Int. -/
structure AppConfig where
  Token : String
  Config : String
  Org : String
  Device : String
  Verbose : Bool
  Timeout : Int
  Profile : String
deriving DecidableEq, Repr

/-- The command line as docopt sees it: for each option, the supplied
value, or none when the flag is absent. -/
structure CliArgs where
  token : Option String
  config : Option String
  org : Option String
  device : Option String
  profile : Option String
  timeout : Option Int
  verbose : Bool
deriving DecidableEq, Repr

/-- AppConfig.Parse: docopt binds each flag, applying the defaults given
in the Usage string (config "$HOME/.gredentures.yml", profile
"default-mfa", timeout 86400); flags without a default bind to the Go
zero value. Parse then re-applies the profile default if still empty. -/
def Parse (args : CliArgs) : AppConfig :=
  let conf : AppConfig :=
    { Token := args.token.getD ""
      Config := args.config.getD "$HOME/.gredentures.yml"
      Org := args.org.getD ""
      Device := args.device.getD ""
      Verbose := args.verbose
      Timeout := args.timeout.getD 86400
      Profile := args.profile.getD "default-mfa" }
  if conf.Profile = "" then { conf with Profile := "default-mfa" } else conf

/-- The flat koanf map holding the persisted fields of an AppConfig:
exactly the configMap / existingConfig literal of the source. -/
def confKVMap (conf : AppConfig) : KVMap :=
  [("gredentures.Org", Value.vstr conf.Org),
   ("gredentures.Device", Value.vstr conf.Device),
   ("gredentures.Timeout", Value.vint conf.Timeout)]

/-- WriteGredenturesConfig: the YAML document written to the config path
is the marshalled flat map of Org, Device and Timeout (k.All() of the
koanf instance loaded from configMap). -/
def WriteGredenturesConfig (conf : AppConfig) : KVMap :=
  confKVMap conf

/-- LoadGredenturesConfig: load the existing AppConfig values into koanf,
merge the YAML file over them, then update each field only if it is still
unset (empty string, or 0 for Timeout). The Timeout read goes through the
int32 cast of the source. -/
def LoadGredenturesConfig (conf : AppConfig) (fileMap : KVMap) : AppConfig :=
  let existingConfig := confKVMap conf
  let org :=
    if conf.Org = "" then
      (mergedGet existingConfig fileMap "gredentures.Org").elim "" Value.asString
    else conf.Org
  let device :=
    if conf.Device = "" then
      (mergedGet existingConfig fileMap "gredentures.Device").elim "" Value.asString
    else conf.Device
  let timeout :=
    if conf.Timeout = 0 then
      wrap32 ((mergedGet existingConfig fileMap "gredentures.Timeout").elim 0 Value.asInt)
    else conf.Timeout
  { conf with Org := org, Device := device, Timeout := timeout }

/-- State of the gredentures config file on disk: absent, present but not
parseable as YAML, or present with a parsed koanf map. -/
inductive FileState where
  | absent
  | broken
  | stored (m : KVMap)
deriving DecidableEq, Repr

/-- The config-path defaulting at the top of GetGredenturesConfig. -/
def withDefaultPath (conf : AppConfig) (home : String) : AppConfig :=
  if conf.Config = "" then { conf with Config := home ++ "/.gredentures.yml" } else conf

/-- GetGredenturesConfig: default the config path, then load the file if
it exists, bootstrap it with WriteGredenturesConfig if it does not, and
fail if it exists but cannot be loaded. Returns the updated AppConfig and
the resulting file state. -/
def GetGredenturesConfig (conf : AppConfig) (fs : FileState) (home : String) :
    Except String (AppConfig × FileState) :=
  let conf := withDefaultPath conf home
  match fs with
  | .stored m => .ok (LoadGredenturesConfig conf m, .stored m)
  | .broken => .error "failed to load YAML file into koanf"
  | .absent => .ok (conf, .stored (WriteGredenturesConfig conf))

/-- ValidateOptions: merge the config file via GetGredenturesConfig, then
require Token, then require Org and Device jointly. Returns the AppConfig
after the merge (the Go receiver is a pointer, so the mutation survives a
validation failure), the file state, and the error message if any. -/
def ValidateOptionsRun (conf : AppConfig) (fs : FileState) (home : String) :
    AppConfig × FileState × Option String :=
  match GetGredenturesConfig conf fs home with
  | .error e => (conf, fs, some ("error getting gredentures config: " ++ e))
  | .ok (conf2, fs2) =>
    if conf2.Token = "" then
      (conf2, fs2, some "token must be supplied for MFA")
    else if conf2.Org = "" || conf2.Device = "" then
      (conf2, fs2,
        some "the Token must be set with a commandline arg. Org, and Device must be set in a config file or as commandline options")
    else (conf2, fs2, none)

/-- aws.Credentials, restricted to the fields the source reads. -/
structure Credentials where
  AccessKeyID : String
  SecretAccessKey : String
deriving DecidableEq, Repr

/-- sts types.Credentials: every field is a *string in Go. -/
structure StsCredentials where
  AccessKeyId : Option String
  SecretAccessKey : Option String
  SessionToken : Option String
deriving DecidableEq, Repr

/-- sts.GetSessionTokenOutput: the Credentials field is a pointer. -/
structure GetSessionTokenOutput where
  Credentials : Option StsCredentials
deriving DecidableEq, Repr

/-- AwsConfig from pkg/awsconfig/awsconfig.go: sessionCreds is a pointer,
nil until GetSessionCreds succeeds. -/
structure AwsConfig where
  defaultCreds : Credentials
  sessionCreds : Option GetSessionTokenOutput
deriving DecidableEq, Repr

/-- A named ini section with its key-value pairs (key order within a
section is not significant in the source, which ranges over a Go map). -/
abbrev IniSection := String × List (String × String)

/-- An ini document: ordered list of named sections. -/
abbrev IniFile := List IniSection

/-- Names of the sections of an ini document, in order. -/
def sectionNames (f : IniFile) : List String := f.map Prod.fst

/-- CreateUpdatedConfig: build a fresh empty ini document, add a
"default" section with the permanent pair and a "default-mfa" section
with the session triple (the section name is the literal "default-mfa" in
the source; the Profile field is not consulted), then save it over the
credentials path. The sessionCreds pointer and its Credentials fields are
dereferenced with no nil check; none models the resulting crash. -/
def CreateUpdatedConfig (conf : AwsConfig) : Option IniFile :=
  match conf.sessionCreds with
  | none => none
  | some out =>
    match out.Credentials with
    | none => none
    | some c =>
      match c.SessionToken, c.AccessKeyId, c.SecretAccessKey with
      | some st, some ak, some sk =>
        some [("default",
                [("aws_access_key_id", conf.defaultCreds.AccessKeyID),
                 ("aws_secret_access_key", conf.defaultCreds.SecretAccessKey)]),
              ("default-mfa",
                [("aws_session_token", st),
                 ("aws_access_key_id", ak),
                 ("aws_secret_access_key", sk)])]
      | _, _, _ => none

/-- Content of the aws credentials file after a CreateUpdatedConfig call:
on success the fresh document replaces the file wholesale (ini SaveTo
truncates), on a crash the prior content is untouched. -/
def credsFileAfterWrite (prior : IniFile) (conf : AwsConfig) : IniFile :=
  match CreateUpdatedConfig conf with
  | some f => f
  | none => prior

/-- The credentials document as the specification words it: a "default"
section with the permanent pair, and a section named by the supplied
profileName with the temporary triple. Written from the spec for
comparison against CreateUpdatedConfig. -/
structure TemporaryCredentials where
  accessKeyId : String
  secretAccessKey : String
  sessionToken : String
deriving DecidableEq, Repr

/-- Spec-side document builder for the credentials file (see the comment
on TemporaryCredentials). -/
def specCredentialsDocument (profileName : String) (perm : Credentials)
    (tmp : TemporaryCredentials) : IniFile :=
  [("default",
     [("aws_access_key_id", perm.AccessKeyID),
      ("aws_secret_access_key", perm.SecretAccessKey)]),
   (profileName,
     [("aws_session_token", tmp.sessionToken),
      ("aws_access_key_id", tmp.accessKeyId),
      ("aws_secret_access_key", tmp.secretAccessKey)])]

/-- Outcomes of the external steps of one run, plus the ambient state. -/
structure World where
  fs : FileState
  home : String
  credsFilePrior : IniFile
  defaultCredsResult : Except String Credentials
  exchangeResult : Except String GetSessionTokenOutput
deriving Repr

/-- Observable trace of one run of main from src/main.go. -/
structure RunResult where
  validateError : Option String
  defaultCredsError : Option String
  exchangeError : Option String
  writeStepExecuted : Bool
  crashed : Bool
  credsFileAfter : IniFile
deriving DecidableEq, Repr

/-- main from src/main.go: every step runs unconditionally; each failure
is printed and execution continues to the next step. On a failed
exchange, sessionCreds stays nil and CreateUpdatedConfig crashes. -/
def mainRun (args : CliArgs) (w : World) : RunResult :=
  let conf := Parse args
  let v := ValidateOptionsRun conf w.fs w.home
  let defaultCreds :=
    match w.defaultCredsResult with
    | .ok c => c
    | .error _ => { AccessKeyID := "", SecretAccessKey := "" }
  let sessionCreds :=
    match w.exchangeResult with
    | .ok out => some out
    | .error _ => none
  let aws : AwsConfig := { defaultCreds := defaultCreds, sessionCreds := sessionCreds }
  let written := CreateUpdatedConfig aws
  { validateError := v.2.2
    defaultCredsError :=
      match w.defaultCredsResult with
      | .error e => some e
      | .ok _ => none
    exchangeError :=
      match w.exchangeResult with
      | .error e => some e
      | .ok _ => none
    writeStepExecuted := true
    crashed := written.isNone
    credsFileAfter :=
      match written with
      | some f => f
      | none => w.credsFilePrior }

/-- Observable result of the CLI function of the historical single-file
version of the tool. -/
structure CLIResult where
  exitCode : Nat
  writeStepExecuted : Bool
  crashed : Bool
  credsFileAfter : IniFile
deriving DecidableEq, Repr

/-- CLI from the historical single-file version: identical pipeline, but
it returns exit code 1 at the first failing step, so later steps never
run. -/
def CLIRun (args : CliArgs) (w : World) : CLIResult :=
  let conf := Parse args
  let v := ValidateOptionsRun conf w.fs w.home
  match v.2.2 with
  | some _ => ⟨1, false, false, w.credsFilePrior⟩
  | none =>
    match w.defaultCredsResult with
    | .error _ => ⟨1, false, false, w.credsFilePrior⟩
    | .ok dc =>
      match w.exchangeResult with
      | .error _ => ⟨1, false, false, w.credsFilePrior⟩
      | .ok out =>
        match CreateUpdatedConfig ⟨dc, some out⟩ with
        | some f => ⟨0, true, false, f⟩
        | none => ⟨1, true, true, w.credsFilePrior⟩

/-! Helper lemmas about field projections. -/

theorem withDefaultPath_Token (conf : AppConfig) (home : String) :
    (withDefaultPath conf home).Token = conf.Token := by
  unfold withDefaultPath; split <;> rfl

theorem withDefaultPath_Org (conf : AppConfig) (home : String) :
    (withDefaultPath conf home).Org = conf.Org := by
  unfold withDefaultPath; split <;> rfl

theorem withDefaultPath_Device (conf : AppConfig) (home : String) :
    (withDefaultPath conf home).Device = conf.Device := by
  unfold withDefaultPath; split <;> rfl

theorem withDefaultPath_Timeout (conf : AppConfig) (home : String) :
    (withDefaultPath conf home).Timeout = conf.Timeout := by
  unfold withDefaultPath; split <;> rfl

theorem load_Token (conf : AppConfig) (m : KVMap) :
    (LoadGredenturesConfig conf m).Token = conf.Token := rfl

theorem parse_Timeout (args : CliArgs) :
    (Parse args).Timeout = args.timeout.getD 86400 := by
  unfold Parse; dsimp only; split <;> rfl

theorem parse_Org (args : CliArgs) :
    (Parse args).Org = args.org.getD "" := by
  unfold Parse; dsimp only; split <;> rfl

theorem parse_Device (args : CliArgs) :
    (Parse args).Device = args.device.getD "" := by
  unfold Parse; dsimp only; split <;> rfl

theorem wrap32_eq_of_range (n : Int) (h1 : -(2 ^ 31) ≤ n) (h2 : n < 2 ^ 31) :
    wrap32 n = n := by
  unfold wrap32
  norm_num at h1 h2 ⊢
  omega

theorem validate_fst_Token (conf : AppConfig) (fs : FileState) (home : String) :
    (ValidateOptionsRun conf fs home).1.Token = conf.Token := by
  cases fs <;>
    simp only [ValidateOptionsRun, GetGredenturesConfig] <;>
    (repeat' split) <;> simp [load_Token, withDefaultPath_Token]

theorem load_Org_eq (conf : AppConfig) (m : KVMap) :
    (LoadGredenturesConfig conf m).Org =
      (if conf.Org = "" then kString m "gredentures.Org" else conf.Org) := by
  by_cases hO : conf.Org = ""
  · cases hm : lookupKV m "gredentures.Org" <;>
      simp [LoadGredenturesConfig, confKVMap, mergedGet, kString, hO, hm, lookupKV,
        Value.asString]
  · simp [LoadGredenturesConfig, hO]

theorem load_Device_eq (conf : AppConfig) (m : KVMap) :
    (LoadGredenturesConfig conf m).Device =
      (if conf.Device = "" then kString m "gredentures.Device" else conf.Device) := by
  by_cases hD : conf.Device = ""
  · cases hm : lookupKV m "gredentures.Device" <;>
      simp [LoadGredenturesConfig, confKVMap, mergedGet, kString, hD, hm, lookupKV,
        Value.asString]
  · simp [LoadGredenturesConfig, hD]

theorem validate_stored_fst (conf : AppConfig) (m : KVMap) (home : String) :
    (ValidateOptionsRun conf (FileState.stored m) home).1 =
      LoadGredenturesConfig (withDefaultPath conf home) m := by
  simp only [ValidateOptionsRun, GetGredenturesConfig]
  (repeat' split) <;> rfl

theorem load_withDefaultPath_Org (conf : AppConfig) (m : KVMap) (home : String) :
    (LoadGredenturesConfig (withDefaultPath conf home) m).Org =
      (if conf.Org = "" then kString m "gredentures.Org" else conf.Org) := by
  unfold withDefaultPath
  split <;> rw [load_Org_eq]

theorem load_withDefaultPath_Device (conf : AppConfig) (m : KVMap) (home : String) :
    (LoadGredenturesConfig (withDefaultPath conf home) m).Device =
      (if conf.Device = "" then kString m "gredentures.Device" else conf.Device) := by
  unfold withDefaultPath
  split <;> rw [load_Device_eq]

/-! Claim theorems. -/

/-- C3: resolving against an existing config file, a non-empty
CLI-supplied Org (resp. Device) survives untouched whatever the file
holds, and an empty one resolves to the value the config file holds for
that field (k.String of the file map, empty when the file also lacks
it). -/
theorem c3_cli_overrides_file (conf : AppConfig) (m : KVMap) (home : String) :
    (ValidateOptionsRun conf (FileState.stored m) home).1.Org =
      (if conf.Org = "" then kString m "gredentures.Org" else conf.Org) ∧
    (ValidateOptionsRun conf (FileState.stored m) home).1.Device =
      (if conf.Device = "" then kString m "gredentures.Device" else conf.Device) := by
  rw [validate_stored_fst, load_withDefaultPath_Org, load_withDefaultPath_Device]
  exact ⟨rfl, rfl⟩

/-- C5: whenever the Token is empty after parsing, ValidateOptions fails
with the token-required message, for every Org and Device (on the CLI or
in a loadable or absent config file). -/
theorem c5_token_required (conf : AppConfig) (fs : FileState) (home : String)
    (htok : conf.Token = "") (hfs : fs ≠ FileState.broken) :
    (ValidateOptionsRun conf fs home).2.2 = some "token must be supplied for MFA" := by
  cases fs with
  | broken => exact absurd rfl hfs
  | absent =>
    simp [ValidateOptionsRun, GetGredenturesConfig, withDefaultPath_Token, htok]
  | stored m =>
    simp [ValidateOptionsRun, GetGredenturesConfig, load_Token, withDefaultPath_Token, htok]

/-- C5 witness: concrete run with empty token but Org and Device present
both on the CLI and in the file. -/
theorem c5_token_required_witness :
    (ValidateOptionsRun
        { Token := "", Config := "/tmp/c", Org := "acme", Device := "arn:x",
          Verbose := false, Timeout := 0, Profile := "default-mfa" }
        (FileState.stored [("gredentures.Org", Value.vstr "file-org")])
        "/home/u").2.2 = some "token must be supplied for MFA" :=
  c5_token_required _ _ _ rfl (by simp)

/-- C6: when the config file is absent and Org and Device are supplied on
the CLI, GetGredenturesConfig bootstraps the file, and the written map
carries exactly the supplied Org and Device values. -/
theorem c6_bootstrap (args : CliArgs) (home o d : String)
    (ho : args.org = some o) (hd : args.device = some d) :
    ∃ c w,
      GetGredenturesConfig (Parse args) FileState.absent home =
        Except.ok (c, FileState.stored w) ∧
      kString w "gredentures.Org" = o ∧ kString w "gredentures.Device" = d := by
  refine ⟨withDefaultPath (Parse args) home,
    WriteGredenturesConfig (withDefaultPath (Parse args) home), rfl, ?_, ?_⟩
  · simp [WriteGredenturesConfig, confKVMap, kString, lookupKV, Value.asString,
      withDefaultPath_Org, parse_Org, ho]
  · simp [WriteGredenturesConfig, confKVMap, kString, lookupKV, Value.asString,
      withDefaultPath_Device, parse_Device, hd]

/-- C6 witness: concrete bootstrap with org acme and device arn:x. -/
theorem c6_bootstrap_witness :
    ∃ c w,
      GetGredenturesConfig
          (Parse ⟨some "123456", some "/tmp/c", some "acme", some "arn:x", none, none, false⟩)
          FileState.absent "/home/u" =
        Except.ok (c, FileState.stored w) ∧
      kString w "gredentures.Org" = "acme" ∧ kString w "gredentures.Device" = "arn:x" :=
  c6_bootstrap _ _ _ _ rfl rfl

/-- C7: the credentials-file write starts from a fresh empty document:
the resulting file content does not depend on the prior content of the
file, and it holds exactly the two sections default and default-mfa. -/
theorem c7_fresh_overwrite (prior1 prior2 : IniFile) (dc : Credentials)
    (ak sk st : String) :
    credsFileAfterWrite prior1 ⟨dc, some ⟨some ⟨some ak, some sk, some st⟩⟩⟩ =
      credsFileAfterWrite prior2 ⟨dc, some ⟨some ⟨some ak, some sk, some st⟩⟩⟩ ∧
    sectionNames
        (credsFileAfterWrite prior1 ⟨dc, some ⟨some ⟨some ak, some sk, some st⟩⟩⟩) =
      ["default", "default-mfa"] := by
  exact ⟨rfl, rfl⟩

/-- C8: the MFA token never flows through the config file. The Token of
the resolved configuration equals the CLI-supplied Token for every file
state, two resolutions differing only in the config-file content agree on
the Token, and the bytes WriteGredenturesConfig produces depend only on
Org, Device and Timeout, never on the Token. -/
theorem c8_token_isolation (conf c1 c2 : AppConfig) (fs fs1 fs2 : FileState)
    (home : String) (hO : c1.Org = c2.Org) (hD : c1.Device = c2.Device)
    (hT : c1.Timeout = c2.Timeout) :
    (ValidateOptionsRun conf fs home).1.Token = conf.Token ∧
    (ValidateOptionsRun conf fs1 home).1.Token = (ValidateOptionsRun conf fs2 home).1.Token ∧
    WriteGredenturesConfig c1 = WriteGredenturesConfig c2 := by
  refine ⟨validate_fst_Token conf fs home, ?_, ?_⟩
  · rw [validate_fst_Token, validate_fst_Token]
  · simp [WriteGredenturesConfig, confKVMap, hO, hD, hT]

/-- C8 witness: two runs whose configurations differ only in the Token
produce identical config-file bytes, and a run resolves the CLI Token
against a populated file. -/
theorem c8_token_isolation_witness :
    (ValidateOptionsRun
        { Token := "123456", Config := "/tmp/c", Org := "acme", Device := "arn:x",
          Verbose := false, Timeout := 0, Profile := "default-mfa" }
        (FileState.stored [("gredentures.Org", Value.vstr "file-org")])
        "/home/u").1.Token = "123456" ∧
    WriteGredenturesConfig
        { Token := "111111", Config := "/tmp/c", Org := "acme", Device := "arn:x",
          Verbose := false, Timeout := 300, Profile := "default-mfa" } =
      WriteGredenturesConfig
        { Token := "999999", Config := "/tmp/c", Org := "acme", Device := "arn:x",
          Verbose := false, Timeout := 300, Profile := "default-mfa" } := by
  have h := c8_token_isolation
    { Token := "123456", Config := "/tmp/c", Org := "acme", Device := "arn:x",
      Verbose := false, Timeout := 0, Profile := "default-mfa" }
    { Token := "111111", Config := "/tmp/c", Org := "acme", Device := "arn:x",
      Verbose := false, Timeout := 300, Profile := "default-mfa" }
    { Token := "999999", Config := "/tmp/c", Org := "acme", Device := "arn:x",
      Verbose := false, Timeout := 300, Profile := "default-mfa" }
    (FileState.stored [("gredentures.Org", Value.vstr "file-org")])
    FileState.absent FileState.absent "/home/u" rfl rfl rfl
  exact ⟨h.1, h.2.2⟩

/-- C9: writing a persisted configuration with WriteGredenturesConfig and
loading the result with LoadGredenturesConfig into a configuration with
all fields unset recovers Org, Device and the integer Timeout exactly
(Timeout stays within the int32 range of the Go field). -/
theorem c9_roundtrip (tok cfg org device prof : String) (vb : Bool) (t : Int)
    (h1 : -(2 ^ 31) ≤ t) (h2 : t < 2 ^ 31) :
    (LoadGredenturesConfig
        { Token := "", Config := "", Org := "", Device := "", Verbose := false,
          Timeout := 0, Profile := "" }
        (WriteGredenturesConfig
          { Token := tok, Config := cfg, Org := org, Device := device, Verbose := vb,
            Timeout := t, Profile := prof })).Org = org ∧
    (LoadGredenturesConfig
        { Token := "", Config := "", Org := "", Device := "", Verbose := false,
          Timeout := 0, Profile := "" }
        (WriteGredenturesConfig
          { Token := tok, Config := cfg, Org := org, Device := device, Verbose := vb,
            Timeout := t, Profile := prof })).Device = device ∧
    (LoadGredenturesConfig
        { Token := "", Config := "", Org := "", Device := "", Verbose := false,
          Timeout := 0, Profile := "" }
        (WriteGredenturesConfig
          { Token := tok, Config := cfg, Org := org, Device := device, Verbose := vb,
            Timeout := t, Profile := prof })).Timeout = t := by
  refine ⟨?_, ?_, ?_⟩ <;>
    simp [LoadGredenturesConfig, WriteGredenturesConfig, confKVMap, mergedGet, lookupKV,
      Value.asString, Value.asInt, wrap32_eq_of_range t h1 h2]

/-- C9 witness: round trip of org acme, device arn:x, timeout 3600. -/
theorem c9_roundtrip_witness :
    (LoadGredenturesConfig
        { Token := "", Config := "", Org := "", Device := "", Verbose := false,
          Timeout := 0, Profile := "" }
        (WriteGredenturesConfig
          { Token := "123456", Config := "/tmp/c", Org := "acme", Device := "arn:x",
            Verbose := false, Timeout := 3600, Profile := "default-mfa" })).Org = "acme" ∧
    (LoadGredenturesConfig
        { Token := "", Config := "", Org := "", Device := "", Verbose := false,
          Timeout := 0, Profile := "" }
        (WriteGredenturesConfig
          { Token := "123456", Config := "/tmp/c", Org := "acme", Device := "arn:x",
            Verbose := false, Timeout := 3600, Profile := "default-mfa" })).Timeout = 3600 := by
  have h := c9_roundtrip "123456" "/tmp/c" "acme" "arn:x" "default-mfa" false 3600
    (by norm_num) (by norm_num)
  exact ⟨h.1, h.2.2⟩

/-- C10: CreateUpdatedConfig dereferences sessionCreds with no nil
check: it crashes whenever sessionCreds is nil, it succeeds whenever the
exchange populated every field, and the main of src/main.go does not
establish that precondition: after a failed exchange it still executes
the write step, which then crashes. -/
theorem c10_nil_guard :
    (∀ dc : Credentials, CreateUpdatedConfig ⟨dc, none⟩ = none) ∧
    (∀ (dc : Credentials) (ak sk st : String),
      ∃ f, CreateUpdatedConfig ⟨dc, some ⟨some ⟨some ak, some sk, some st⟩⟩⟩ = some f) ∧
    (∀ (args : CliArgs) (w : World) (e : String),
      w.exchangeResult = Except.error e →
        (mainRun args w).writeStepExecuted = true ∧ (mainRun args w).crashed = true) := by
  refine ⟨fun dc => rfl, fun dc ak sk st => ⟨_, rfl⟩, fun args w e hx => ?_⟩
  simp [mainRun, hx, CreateUpdatedConfig]

/-- C10 witness: the crash on a nil sessionCreds, and a concrete main run
with a failed exchange that still executes the write step and crashes. -/
theorem c10_nil_guard_witness :
    CreateUpdatedConfig ⟨⟨"AK", "SK"⟩, none⟩ = none ∧
    (mainRun ⟨some "123456", some "/tmp/c", some "acme", some "arn:x", none, none, false⟩
        ⟨FileState.stored [], "/home/u", [("other", [])],
          Except.ok ⟨"AK", "SK"⟩, Except.error "AccessDenied"⟩).writeStepExecuted = true ∧
    (mainRun ⟨some "123456", some "/tmp/c", some "acme", some "arn:x", none, none, false⟩
        ⟨FileState.stored [], "/home/u", [("other", [])],
          Except.ok ⟨"AK", "SK"⟩, Except.error "AccessDenied"⟩).crashed = true := by
  have h := c10_nil_guard
  exact ⟨h.1 ⟨"AK", "SK"⟩,
    (h.2.2 _ _ "AccessDenied" rfl).1,
    (h.2.2 _ _ "AccessDenied" rfl).2⟩

/-- C1: the section holding the temporary credentials is the literal
"default-mfa" in CreateUpdatedConfig, whatever profile name was resolved:
at a concrete credential pair the produced document has sections default
and default-mfa, while the document the specification describes for
profileName custom-profile has sections default and custom-profile, and
the two documents differ. -/
theorem c1_profile_section_hardcoded :
    (CreateUpdatedConfig
        ⟨⟨"AKIAPERM", "permsecret"⟩,
          some ⟨some ⟨some "ASIATEMP", some "tempsecret", some "temptoken"⟩⟩⟩).map
        sectionNames = some ["default", "default-mfa"] ∧
    sectionNames
        (specCredentialsDocument "custom-profile" ⟨"AKIAPERM", "permsecret"⟩
          ⟨"ASIATEMP", "tempsecret", "temptoken"⟩) = ["default", "custom-profile"] ∧
    CreateUpdatedConfig
        ⟨⟨"AKIAPERM", "permsecret"⟩,
          some ⟨some ⟨some "ASIATEMP", some "tempsecret", some "temptoken"⟩⟩⟩ ≠
      some (specCredentialsDocument "custom-profile" ⟨"AKIAPERM", "permsecret"⟩
        ⟨"ASIATEMP", "tempsecret", "temptoken"⟩) := by
  refine ⟨rfl, rfl, ?_⟩
  decide

/-- C2 counterexample: a run of main from src/main.go in which the
exchange step fails with an authorization error and the write step is
executed all the same, refuting that the pipeline halts at the exchange
step. -/
theorem c2_halt_counterexample :
    (mainRun ⟨some "123456", some "/tmp/c", some "acme", some "arn:x", none, none, false⟩
        ⟨FileState.stored [], "/home/u", [("other", [])],
          Except.ok ⟨"AK", "SK"⟩, Except.error "AccessDenied"⟩).exchangeError =
      some "AccessDenied" ∧
    (mainRun ⟨some "123456", some "/tmp/c", some "acme", some "arn:x", none, none, false⟩
        ⟨FileState.stored [], "/home/u", [("other", [])],
          Except.ok ⟨"AK", "SK"⟩, Except.error "AccessDenied"⟩).writeStepExecuted = true := by
  exact ⟨rfl, rfl⟩

/-- C2 amended: after a failed exchange, the main of src/main.go reports
the exchange error but still executes the credentials-file write step;
that step crashes on the nil session credentials before saving, so the
credentials file keeps its prior content. Only the CLI code path of the
historical version halts at the exchange step, returning exit code 1
without executing the write. -/
theorem c2_no_halt_but_no_write (args : CliArgs) (w : World) (e : String)
    (dc : Credentials) (hx : w.exchangeResult = Except.error e)
    (hv : (ValidateOptionsRun (Parse args) w.fs w.home).2.2 = none)
    (hd : w.defaultCredsResult = Except.ok dc) :
    (mainRun args w).exchangeError = some e ∧
    (mainRun args w).writeStepExecuted = true ∧
    (mainRun args w).crashed = true ∧
    (mainRun args w).credsFileAfter = w.credsFilePrior ∧
    (CLIRun args w).exitCode = 1 ∧
    (CLIRun args w).writeStepExecuted = false ∧
    (CLIRun args w).credsFileAfter = w.credsFilePrior := by
  refine ⟨?_, rfl, ?_, ?_, ?_, ?_, ?_⟩ <;>
    simp [mainRun, CLIRun, hx, hv, hd, CreateUpdatedConfig]

/-- C2 amended witness: concrete run with a failed exchange; main
executes the write step and crashes leaving the file untouched, CLI
returns 1 without executing the write. -/
theorem c2_no_halt_but_no_write_witness :
    (mainRun ⟨some "123456", some "/tmp/cfg", some "acme", some "arn:x", none, none, false⟩
        ⟨FileState.stored [], "/home/me", [("keepme", [])],
          Except.ok ⟨"AK2", "SK2"⟩, Except.error "ExpiredToken"⟩).writeStepExecuted = true ∧
    (mainRun ⟨some "123456", some "/tmp/cfg", some "acme", some "arn:x", none, none, false⟩
        ⟨FileState.stored [], "/home/me", [("keepme", [])],
          Except.ok ⟨"AK2", "SK2"⟩, Except.error "ExpiredToken"⟩).credsFileAfter =
      [("keepme", [])] ∧
    (CLIRun ⟨some "123456", some "/tmp/cfg", some "acme", some "arn:x", none, none, false⟩
        ⟨FileState.stored [], "/home/me", [("keepme", [])],
          Except.ok ⟨"AK2", "SK2"⟩, Except.error "ExpiredToken"⟩).exitCode = 1 ∧
    (CLIRun ⟨some "123456", some "/tmp/cfg", some "acme", some "arn:x", none, none, false⟩
        ⟨FileState.stored [], "/home/me", [("keepme", [])],
          Except.ok ⟨"AK2", "SK2"⟩, Except.error "ExpiredToken"⟩).writeStepExecuted = false := by
  have h := c2_no_halt_but_no_write
    ⟨some "123456", some "/tmp/cfg", some "acme", some "arn:x", none, none, false⟩
    ⟨FileState.stored [], "/home/me", [("keepme", [])],
      Except.ok ⟨"AK2", "SK2"⟩, Except.error "ExpiredToken"⟩
    "ExpiredToken" ⟨"AK2", "SK2"⟩ rfl rfl rfl
  exact ⟨h.2.1, h.2.2.2.1, h.2.2.2.2.1, h.2.2.2.2.2.1⟩

/-- C4 counterexample: token, org and device supplied on the CLI, no
timeout supplied, config file holding Timeout 300; the resolved Timeout
is the parse-time default 86400, not the file value 300. -/
theorem c4_file_timeout_counterexample :
    (ValidateOptionsRun
        (Parse ⟨some "123456", some "/tmp/c", some "acme", some "arn:x", none, none, false⟩)
        (FileState.stored [("gredentures.Timeout", Value.vint 300)])
        "/home/u").1.Timeout = 86400 ∧
    (86400 : Int) ≠ 300 := by
  exact ⟨rfl, by decide⟩

/-- C4 amended: when no timeout is supplied on the CLI, docopt applies
the Usage default 86400 at parse time, so the resolved Timeout is 86400
for every config-file state; the zero sentinel of LoadGredenturesConfig
backfills from the file only when the in-memory Timeout is zero at load
time, which the parse path never produces. -/
theorem c4_parse_default_wins (args : CliArgs) (fs : FileState) (home : String)
    (conf : AppConfig) (m : KVMap) (ht : args.timeout = none)
    (hc : conf.Timeout = 0) :
    (ValidateOptionsRun (Parse args) fs home).1.Timeout = 86400 ∧
    (LoadGredenturesConfig conf m).Timeout =
      wrap32 ((mergedGet (confKVMap conf) m "gredentures.Timeout").elim 0 Value.asInt) := by
  constructor
  · have hp : (Parse args).Timeout = 86400 := by rw [parse_Timeout, ht]; rfl
    cases fs <;>
      simp only [ValidateOptionsRun, GetGredenturesConfig] <;>
      (repeat' split) <;>
      simp [LoadGredenturesConfig, withDefaultPath_Timeout, hp, confKVMap,
        withDefaultPath_Org, withDefaultPath_Device]
  · simp [LoadGredenturesConfig, hc]

/-- C4 amended witness: with no CLI timeout and a file timeout of 300 the
resolution yields 86400, while a direct load into a zero Timeout picks up
the file value. -/
theorem c4_parse_default_wins_witness :
    (ValidateOptionsRun
        (Parse ⟨some "123456", some "/tmp/c", some "acme", some "arn:x", none, none, false⟩)
        (FileState.stored [("gredentures.Timeout", Value.vint 300)])
        "/home/u").1.Timeout = 86400 ∧
    (LoadGredenturesConfig
        { Token := "123456", Config := "/tmp/c", Org := "acme", Device := "arn:x",
          Verbose := false, Timeout := 0, Profile := "default-mfa" }
        [("gredentures.Timeout", Value.vint 300)]).Timeout =
      wrap32 ((mergedGet
          (confKVMap
            { Token := "123456", Config := "/tmp/c", Org := "acme", Device := "arn:x",
              Verbose := false, Timeout := 0, Profile := "default-mfa" })
          [("gredentures.Timeout", Value.vint 300)] "gredentures.Timeout").elim 0
        Value.asInt) :=
  c4_parse_default_wins
    ⟨some "123456", some "/tmp/c", some "acme", some "arn:x", none, none, false⟩
    (FileState.stored [("gredentures.Timeout", Value.vint 300)]) "/home/u"
    { Token := "123456", Config := "/tmp/c", Org := "acme", Device := "arn:x",
      Verbose := false, Timeout := 0, Profile := "default-mfa" }
    [("gredentures.Timeout", Value.vint 300)] rfl rfl

end Gredentures
